import Mathlib

/-!
# Verification of the f5-tts-mlx generation pipeline

Shallow embedding of `src/f5_tts_mlx/generate.py`: the reference-audio
loading and validation, RMS level normalization, the duration-estimation
heuristic, the frame-budget computation, and the sampler-output trimming.

Conventions: Python floats are embedded as exact rationals (`ℚ`) for the
duration arithmetic and as reals (`ℝ`) for the audio samples; Python's
`int()` (truncation toward zero) is `pyInt`; the external diffusion
sampler, pinyin text transform and vocoder are opaque function parameters.
-/

namespace F5TTS

/-- `SAMPLE_RATE = 24_000` (generate.py line 20). -/
def SAMPLE_RATE : ℕ := 24000

/-- `HOP_LENGTH = 256` (generate.py line 21). -/
def HOP_LENGTH : ℕ := 256

/-- `FRAMES_PER_SEC = SAMPLE_RATE / HOP_LENGTH` (generate.py line 22),
a Python float division, exact in `ℚ` (= 93.75). -/
def FRAMES_PER_SEC : ℚ := (SAMPLE_RATE : ℚ) / (HOP_LENGTH : ℚ)

/-- `TARGET_RMS = 0.1` (generate.py line 23). -/
def TARGET_RMS : ℝ := 0.1

/-- Python's `int()` applied to a real value: truncation toward zero. -/
def pyInt (q : ℚ) : ℤ := if 0 ≤ q then ⌊q⌋ else ⌈q⌉

/-- Number of bytes of the UTF-8 encoding of one Unicode scalar value;
`len(c.encode('utf-8'))` in Python. -/
def charUtf8Size (c : Char) : ℕ :=
  if c.toNat ≤ 0x7F then 1
  else if c.toNat ≤ 0x7FF then 2
  else if c.toNat ≤ 0xFFFF then 3
  else 4

/-- `len(text.encode('utf-8'))`: total UTF-8 byte length of a text. -/
def utf8Length (s : List Char) : ℕ := (s.map charUtf8Size).sum

/-- The pattern string `zh_pause_punc = r"。，、；：？！"` (generate.py
line 72), as the list of its characters. -/
def zh_pause_punc : List Char := ['。', '，', '、', '；', '：', '？', '！']

/-- `len(re.findall(zh_pause_punc, text))` (generate.py lines 73-74).
The pattern contains no regex metacharacters and no character class, so
`re.findall` counts non-overlapping occurrences of the entire 7-character
sequence `。，、；：？！`, scanning left to right. -/
def countPausePunc : List Char → ℕ
  | '。' :: '，' :: '、' :: '；' :: '：' :: '？' :: '！' :: rest => 1 + countPausePunc rest
  | _ :: rest => countPausePunc rest
  | [] => 0

/-- The text-length metric of generate.py lines 73-74:
`len(text.encode('utf-8')) + 3 * len(re.findall(zh_pause_punc, text))`. -/
def textLen (s : List Char) : ℕ := utf8Length s + 3 * countPausePunc s

/-- Modelled from the spec's words, for comparison with `textLen`:
`utf8_byte_length(text) + 3 * count_of(pause_punctuation, text)` where the
count is of occurrences of each individual character of the set
{。，、；：？！}. -/
def textLenSpec (s : List Char) : ℕ :=
  utf8Length s + 3 * (s.filter (fun c => zh_pause_punc.contains c)).length

/-- `int(ref_audio_len / ref_text_len * gen_text_len / speed)` (generate.py
line 75), where `ref_audio_len = audio.shape[0] // HOP_LENGTH` (line 71) and
the text lengths come from lines 73-74. All divisions inside `int()` are
Python float divisions, embedded exactly in `ℚ`. -/
def generatedFrames (audioLen : ℕ) (refText genText : List Char) (speed : ℚ) : ℤ :=
  pyInt (((audioLen / HOP_LENGTH : ℕ) : ℚ) / (textLen refText : ℚ)
    * (textLen genText : ℚ) / speed)

/-- `duration_in_frames = ref_audio_len + int(...)` (generate.py line 75). -/
def durationInFrames (audioLen : ℕ) (refText genText : List Char) (speed : ℚ) : ℤ :=
  ((audioLen / HOP_LENGTH : ℕ) : ℤ) + generatedFrames audioLen refText genText speed

/-- `duration = (duration_in_frames / FRAMES_PER_SEC) - ref_audio_duration`
(generate.py line 76). `ref_audio_duration` is passed in as computed at
line 59 (`audio.shape[0] / SAMPLE_RATE`). -/
def heuristicDuration (audioLen : ℕ) (refText genText : List Char) (speed : ℚ)
    (ref_audio_duration : ℚ) : ℚ :=
  (durationInFrames audioLen refText genText speed : ℚ) / FRAMES_PER_SEC
    - ref_audio_duration

/-- `frame_duration = int((ref_audio_duration + duration) * FRAMES_PER_SEC)`
(generate.py line 79). -/
def frame_duration (ref_audio_duration dur : ℚ) : ℤ :=
  pyInt ((ref_audio_duration + dur) * FRAMES_PER_SEC)

/-- A decoded audio file: samples (mono) plus the sample rate reported by
`sf.read`. -/
structure AudioFile where
  samples : List ℝ
  sr : ℕ

/-- Fatal errors of the pipeline (raised exceptions / crashes abort the
generation with no output written). -/
inductive GenError where
  | resourceMissing
  | invalidSampleRate
  | missingTranscript
deriving DecidableEq

/-- The transcript of the bundled default reference clip (generate.py
line 51). -/
def default_ref_text : List Char :=
  "Some call me nature, others call me mother nature.".data

/-- Reference-audio resolution, generate.py lines 41-56.  When no path is
given, the bundled clip is materialized and read (`default_data`; `none`
models `pkgutil.get_data` failing, which crashes before any use of the
audio) and the reference transcript is set to `default_ref_text`.  When a
path is given, the file is read and its sample rate checked against
`SAMPLE_RATE`; the caller's transcript is kept as-is. -/
def loadRef (ref_audio : Option AudioFile) (ref_audio_text : Option (List Char))
    (default_data : Option AudioFile) : Except GenError (List ℝ × Option (List Char)) :=
  match ref_audio with
  | none =>
    match default_data with
    | none => Except.error GenError.resourceMissing
    | some clip => Except.ok (clip.samples, some default_ref_text)
  | some file =>
    if file.sr ≠ SAMPLE_RATE then Except.error GenError.invalidSampleRate
    else Except.ok (file.samples, ref_audio_text)

/-- `rms = mx.sqrt(mx.mean(mx.square(audio)))` (generate.py line 62). -/
noncomputable def rms (audio : List ℝ) : ℝ :=
  Real.sqrt ((audio.map (fun x => x * x)).sum / (audio.length : ℝ))

/-- Level normalization, generate.py lines 62-64:
`if rms < TARGET_RMS: audio = audio * TARGET_RMS / rms`. -/
noncomputable def normalizeAudio (audio : List ℝ) : List ℝ :=
  if rms audio < TARGET_RMS then audio.map (fun x => x * TARGET_RMS / rms audio)
  else audio

/-- The sampling call followed by the trim, generate.py lines 85-97:
`wave, _ = f5tts.sample(audio, text, frame_duration, ...)` then
`wave = wave[audio.shape[0]:]`.  The diffusion sampler is an opaque
function of the (normalized) reference audio, the pinyin text and the
frame budget. -/
def samplerAndTrim (sampler : List ℝ → List Char → ℤ → List ℝ)
    (audio : List ℝ) (text : List Char) (fd : ℤ) : List ℝ :=
  (sampler audio text fd).drop audio.length

/-- The `generate` pipeline, generate.py lines 26-103, with the external
collaborators (diffusion sampler, pinyin transform) as opaque parameters.
The `Except.ok` payload is the waveform written to the output file
(line 103); an `Except.error` models a raised exception: generation aborts
and no output file is written. -/
noncomputable def generate (sampler : List ℝ → List Char → ℤ → List ℝ)
    (toPinyin : List Char → List Char)
    (generation_text : List Char) (duration : Option ℚ)
    (ref_audio : Option AudioFile) (ref_audio_text : Option (List Char))
    (speed : ℚ) (default_data : Option AudioFile) : Except GenError (List ℝ) :=
  match loadRef ref_audio ref_audio_text default_data with
  | Except.error e => Except.error e
  | Except.ok (audio0, refTextOpt) =>
    match refTextOpt with
    | none => Except.error GenError.missingTranscript
    | some refText =>
      let ref_audio_duration : ℚ := (audio0.length : ℚ) / (SAMPLE_RATE : ℚ)
      let audio := normalizeAudio audio0
      let text := toPinyin (refText ++ [' '] ++ generation_text)
      let dur : ℚ := match duration with
        | some d => d
        | none => heuristicDuration audio.length refText generation_text speed
            ref_audio_duration
      Except.ok (samplerAndTrim sampler audio text (frame_duration ref_audio_duration dur))

/-! ## Helper lemmas -/

theorem textLen_hello_world : textLen "hello world".data = 11 := by decide

theorem textLen_hi_there : textLen "hi there".data = 8 := by decide

theorem FRAMES_PER_SEC_pos : (0:ℚ) < FRAMES_PER_SEC := by
  norm_num [FRAMES_PER_SEC, SAMPLE_RATE, HOP_LENGTH]

/-! ## Claims -/

/-- C1: the claim states that the duration-estimation text length equals
`utf8_byte_length(text) + 3 * (count of individual pause-punctuation
characters)`, so that a text consisting of the single CJK full-width comma
`，` gets `3 + 3 = 6`.  The code (generate.py lines 72-74) instead passes
the raw string `。，、；：？！` to `re.findall` without a character class,
counting only occurrences of the whole 7-character sequence: on `，` it
adds nothing (`textLen = 3`), and on the full sequence itself it adds `3`
where the per-character count would add `21`.  `textLenSpec` is the
spec-mandated metric, for comparison. -/
theorem pause_punc_code_eval :
    textLen ['，'] = 3 ∧ textLenSpec ['，'] = 6 ∧
    textLen zh_pause_punc = 24 ∧ textLenSpec zh_pause_punc = 42 := by
  decide

/-- C2 counterexample: on the claim's concrete inputs (72000 reference
samples, transcript "hello world", generation text "hi there", speed 1,
reference duration 3 s) the heuristic duration is exactly `163/75 ≈ 2.17`
seconds, not `≈ 1.17` seconds as the claim states (it is more than `1/10`
away from `1.17`). -/
theorem duration_example_counterexample :
    heuristicDuration 72000 "hello world".data "hi there".data 1 3 = 163/75 ∧
    ¬ |heuristicDuration 72000 "hello world".data "hi there".data 1 3 - 117/100| ≤ 1/10 := by
  have h : heuristicDuration 72000 "hello world".data "hi there".data 1 3 = 163/75 := by
    unfold heuristicDuration durationInFrames generatedFrames pyInt
    rw [textLen_hello_world, textLen_hi_there]
    norm_num [HOP_LENGTH, FRAMES_PER_SEC, SAMPLE_RATE]
  refine ⟨h, ?_⟩
  rw [h, show (163:ℚ)/75 - 117/100 = 301/300 by norm_num,
    abs_of_nonneg (by norm_num)]
  norm_num

/-- C2 amended: on those inputs `ref_frames = 72000 / 256 = 281`,
`generated_frames = int(281 * 8 / 11) = 204`, and
`duration_seconds = (281 + 204) / 93.75 - 3.0 = 163/75 ≈ 2.17` seconds
(the claim's `≈ 1.17` corrected to `≈ 2.17`). -/
theorem duration_example_amended :
    (72000 / HOP_LENGTH : ℕ) = 281 ∧
    generatedFrames 72000 "hello world".data "hi there".data 1 = 204 ∧
    heuristicDuration 72000 "hello world".data "hi there".data 1 3 = 163/75 ∧
    |(163:ℚ)/75 - 217/100| ≤ 1/100 := by
  refine ⟨by decide, ?_, ?_, ?_⟩
  · unfold generatedFrames pyInt
    rw [textLen_hello_world, textLen_hi_there]
    norm_num [HOP_LENGTH]
  · unfold heuristicDuration durationInFrames generatedFrames pyInt
    rw [textLen_hello_world, textLen_hi_there]
    norm_num [HOP_LENGTH, FRAMES_PER_SEC, SAMPLE_RATE]
  · rw [show (163:ℚ)/75 - 217/100 = 1/300 by norm_num,
      abs_of_nonneg (by norm_num)]
    norm_num

/-- C3 counterexample: the claim states the frame budget is
`round((ref_duration + duration) * FRAMES_PER_SEC)`; with a 3-second
reference and an explicit duration of 1.5 seconds the code's
`int()` (generate.py line 79) truncates `4.5 * 93.75 = 421.875` to `421`,
while rounding to nearest gives `422`. -/
theorem frame_budget_counterexample :
    frame_duration 3 (3/2) ≠ round (((3:ℚ) + 3/2) * FRAMES_PER_SEC) := by
  have h1 : frame_duration 3 (3/2) = 421 := by
    unfold frame_duration pyInt
    norm_num [FRAMES_PER_SEC, SAMPLE_RATE, HOP_LENGTH]
  have h2 : round (((3:ℚ) + 3/2) * FRAMES_PER_SEC) = 422 := by
    norm_num [round_eq, FRAMES_PER_SEC, SAMPLE_RATE, HOP_LENGTH]
  rw [h1, h2]
  decide

/-- C3 amended: the total frame budget is `int()` truncation toward zero
of `(ref_duration + duration) * FRAMES_PER_SEC`, which for the
nonnegative totals arising in practice is the floor of that product, not
round-to-nearest. -/
theorem frame_budget_amended (ref_audio_duration dur : ℚ)
    (h : 0 ≤ ref_audio_duration + dur) :
    frame_duration ref_audio_duration dur
      = ⌊(ref_audio_duration + dur) * FRAMES_PER_SEC⌋ := by
  unfold frame_duration pyInt
  rw [if_pos (mul_nonneg h FRAMES_PER_SEC_pos.le)]

/-- C3 amended, witness at the counterexample's input. -/
theorem frame_budget_amended_witness :
    (0:ℚ) ≤ 3 + 3/2 ∧
    frame_duration 3 (3/2) = ⌊(((3:ℚ) + 3/2) * FRAMES_PER_SEC)⌋ :=
  ⟨by norm_num, frame_budget_amended 3 (3/2) (by norm_num)⟩

theorem pyInt_le_pyInt {a b : ℚ} (ha : 0 ≤ a) (hab : a ≤ b) : pyInt a ≤ pyInt b := by
  unfold pyInt
  rw [if_pos ha, if_pos (ha.trans hab)]
  exact Int.floor_le_floor hab

/-- C4: for any reference audio file whose sample rate differs from
24000 Hz, `generate` fails with the invalid-sample-rate error
(generate.py lines 54-56).  The result is this error for every sampler
function, so the diffusion sampling capability is never invoked, and the
error result means no output waveform is produced or written. -/
theorem sample_rate_mismatch_fails
    (sampler : List ℝ → List Char → ℤ → List ℝ) (toPinyin : List Char → List Char)
    (gt : List Char) (dur : Option ℚ) (t : Option (List Char)) (speed : ℚ)
    (dd : Option AudioFile) (samples : List ℝ) (sr : ℕ) (h : sr ≠ SAMPLE_RATE) :
    generate sampler toPinyin gt dur (some ⟨samples, sr⟩) t speed dd
      = Except.error GenError.invalidSampleRate := by
  simp [generate, loadRef, h]

/-- C4 witness: a 16000 Hz reference file fails. -/
theorem sample_rate_mismatch_fails_witness :
    16000 ≠ SAMPLE_RATE ∧
    generate (fun a _ _ => a) id [] none (some ⟨[], 16000⟩) none 1 none
      = Except.error GenError.invalidSampleRate :=
  ⟨by decide, sample_rate_mismatch_fails _ _ _ _ _ _ _ _ _ (by decide)⟩

/-- C5: for every successful generation the written waveform
(`generate`'s `ok` payload is `samplerAndTrim`'s result, generate.py
lines 85-103) has length equal to the length of the waveform returned by
the sampler minus the number of samples of the (normalized) reference
clip, provided the sampler's output spans at least the reference. -/
theorem trim_length_invariant (sampler : List ℝ → List Char → ℤ → List ℝ)
    (audio : List ℝ) (text : List Char) (fd : ℤ)
    (h : audio.length ≤ (sampler audio text fd).length) :
    ((samplerAndTrim sampler audio text fd).length : ℤ)
      = ((sampler audio text fd).length : ℤ) - (audio.length : ℤ) := by
  unfold samplerAndTrim
  rw [List.length_drop]
  omega

/-- C5 witness: a sampler doubling its one-sample reference. -/
theorem trim_length_invariant_witness :
    ([(0:ℝ)]).length
        ≤ ((fun (a : List ℝ) (_ : List Char) (_ : ℤ) => a ++ a) [(0:ℝ)] [] 0).length ∧
    ((samplerAndTrim (fun a _ _ => a ++ a) [(0:ℝ)] [] 0).length : ℤ)
      = (((fun (a : List ℝ) (_ : List Char) (_ : ℤ) => a ++ a) [(0:ℝ)] [] 0).length : ℤ)
        - (([(0:ℝ)]).length : ℤ) :=
  ⟨by decide, trim_length_invariant _ _ _ _ (by decide)⟩

/-- C8: the estimated generated frame count (generate.py line 75) is
antitone in `speed`: for fixed reference audio and texts with nonzero
reference text length, a higher positive speed never yields more
estimated frames (hence never a longer estimated generated duration). -/
theorem speed_antitone (audioLen : ℕ) (refText genText : List Char) (s1 s2 : ℚ)
    (h1 : 0 < s1) (h12 : s1 < s2) (hr : 0 < textLen refText) :
    generatedFrames audioLen refText genText s2
      ≤ generatedFrames audioLen refText genText s1 := by
  have h2 : (0:ℚ) < s2 := h1.trans h12
  have hC : (0:ℚ) ≤ ((audioLen / HOP_LENGTH : ℕ) : ℚ) / (textLen refText : ℚ)
      * (textLen genText : ℚ) :=
    mul_nonneg (div_nonneg (Nat.cast_nonneg _) (Nat.cast_nonneg _)) (Nat.cast_nonneg _)
  unfold generatedFrames
  apply pyInt_le_pyInt (div_nonneg hC h2.le)
  gcongr

/-- C8 witness: doubling the speed on the round-trip scenario's inputs. -/
theorem speed_antitone_witness :
    (0:ℚ) < 1 ∧ (1:ℚ) < 2 ∧ 0 < textLen "hello world".data ∧
    generatedFrames 72000 "hello world".data "hi there".data 2
      ≤ generatedFrames 72000 "hello world".data "hi there".data 1 :=
  ⟨by norm_num, by norm_num, by decide,
    speed_antitone 72000 "hello world".data "hi there".data 1 2
      (by norm_num) (by norm_num) (by decide)⟩

/-- C9: when no reference audio path is supplied and the bundled clip
loads, the reference transcript is set to the default transcript
(generate.py line 51), whatever transcript the caller passed in. -/
theorem default_transcript_override (t : Option (List Char)) (clip : AudioFile) :
    loadRef none t (some clip) = Except.ok (clip.samples, some default_ref_text) := rfl

/-- Scaling every sample by a common nonnegative factor scales the RMS by
that factor. -/
theorem rms_smul (c : ℝ) (hc : 0 ≤ c) (l : List ℝ) :
    rms (l.map (fun x => x * c)) = c * rms l := by
  unfold rms
  rw [List.map_map]
  have h1 : ((fun x => x * x) ∘ fun x : ℝ => x * c) = fun x => c * c * (x * x) := by
    funext x
    simp only [Function.comp_apply]
    ring
  rw [h1, List.sum_map_mul_left, List.length_map, mul_div_assoc,
    Real.sqrt_mul (mul_self_nonneg c), Real.sqrt_mul_self hc]

theorem rms_pair : rms [(1:ℝ)/20, 1/20] = 1/20 := by
  unfold rms
  simp only [List.map_cons, List.map_nil, List.sum_cons, List.sum_nil,
    List.length_cons, List.length_nil]
  norm_num
  rw [show (400:ℝ) = 20^2 by norm_num, Real.sqrt_sq (by norm_num : (0:ℝ) ≤ 20)]
  norm_num

theorem rms_half : rms [(1:ℝ)/2] = 1/2 := by
  unfold rms
  simp only [List.map_cons, List.map_nil, List.sum_cons, List.sum_nil,
    List.length_cons, List.length_nil]
  norm_num
  rw [show (4:ℝ) = 2^2 by norm_num, Real.sqrt_sq (by norm_num : (0:ℝ) ≤ 2)]
  norm_num

/-- C6: for a reference clip with `0 < rms < TARGET_RMS`, the normalized
clip (generate.py lines 62-64) has RMS exactly `TARGET_RMS`, and the
normalization multiplies every sample by the same factor
`TARGET_RMS / rms`, preserving sample ratios. -/
theorem normalize_quiet_rms (audio : List ℝ) (h0 : 0 < rms audio)
    (h1 : rms audio < TARGET_RMS) :
    rms (normalizeAudio audio) = TARGET_RMS ∧
    normalizeAudio audio = audio.map (fun x => x * (TARGET_RMS / rms audio)) := by
  have hmap : normalizeAudio audio
      = audio.map (fun x => x * (TARGET_RMS / rms audio)) := by
    unfold normalizeAudio
    rw [if_pos h1]
    have h2 : (fun x : ℝ => x * TARGET_RMS / rms audio)
        = fun x => x * (TARGET_RMS / rms audio) := by
      funext x
      rw [mul_div_assoc]
    rw [h2]
  refine ⟨?_, hmap⟩
  rw [hmap, rms_smul _ (div_nonneg (by norm_num [TARGET_RMS]) h0.le),
    div_mul_cancel₀ _ h0.ne']

/-- C6 witness: the clip `[0.05, 0.05]` has RMS `0.05 < 0.1` and is
normalized to RMS `0.1`. -/
theorem normalize_quiet_rms_witness :
    0 < rms [(1:ℝ)/20, 1/20] ∧ rms [(1:ℝ)/20, 1/20] < TARGET_RMS ∧
    rms (normalizeAudio [(1:ℝ)/20, 1/20]) = TARGET_RMS := by
  have h0 : 0 < rms [(1:ℝ)/20, 1/20] := by rw [rms_pair]; norm_num
  have h1 : rms [(1:ℝ)/20, 1/20] < TARGET_RMS := by
    rw [rms_pair]
    norm_num [TARGET_RMS]
  exact ⟨h0, h1, (normalize_quiet_rms _ h0 h1).1⟩

/-- C7: for a reference clip with `rms ≥ TARGET_RMS`, level normalization
(generate.py lines 62-64) leaves the samples unchanged. -/
theorem normalize_loud_noop (audio : List ℝ) (h : TARGET_RMS ≤ rms audio) :
    normalizeAudio audio = audio := by
  unfold normalizeAudio
  rw [if_neg (not_lt.mpr h)]

/-- C7 witness: the clip `[0.5]` has RMS `0.5 ≥ 0.1` and is left as-is. -/
theorem normalize_loud_noop_witness :
    TARGET_RMS ≤ rms [(1:ℝ)/2] ∧ normalizeAudio [(1:ℝ)/2] = [(1:ℝ)/2] := by
  have h : TARGET_RMS ≤ rms [(1:ℝ)/2] := by
    rw [rms_half]
    norm_num [TARGET_RMS]
  exact ⟨h, normalize_loud_noop _ h⟩

/-- C10: in the bundled-default-clip branch the loaded audio's sample
rate is never checked (generate.py lines 41-51 versus 54-56): whatever
sample rate the default asset reports, `generate` never fails with the
invalid-sample-rate error. -/
theorem default_branch_no_rate_check
    (sampler : List ℝ → List Char → ℤ → List ℝ) (toPinyin : List Char → List Char)
    (gt : List Char) (dur : Option ℚ) (t : Option (List Char)) (speed : ℚ)
    (clip : AudioFile) :
    generate sampler toPinyin gt dur none t speed (some clip)
      ≠ Except.error GenError.invalidSampleRate := by
  simp [generate, loadRef]

end F5TTS
